import Mathlib

/-!
Shallow embedding of the search-and-selection controller in
`src/components/UserSuggest.vue` (a Vue 3 script-setup component): the
reactive state, the debounced input handler `onInput`, the cancellable
`fetchUsers` request cycle, the keyboard handler `onKeydown`, and
`selectItem`.

JavaScript values flowing through the response-normalization expression
`data.results || data || []` are modelled by `Jsonish`; truthiness, property
access, `.length`, numeric coercion and indexed access follow JavaScript
semantics (numbers restricted to integers, which covers every value the
development touches).

Asynchrony is modelled by splitting `fetchUsers` at its awaits: `fetchUsers`
is the synchronous prologue (abort the previous controller, install a fresh
one, blank-query early return, set the loading flag, issue the request), and
`fetchUsersResume` is the continuation that runs when the request settles.
`AbortController` identity is an epoch counter: each `fetchUsers` call aborts
the then-current controller and installs a fresh one, so the request created
at epoch `k` has been aborted exactly when the state epoch has moved past
`k`; its awaits then reject with `AbortError`, which is what
`fetchUsersResume` replays. Presentation-only code (cursor measurement,
scroll-into-view, the focus/blur grace delay) is outside the model.
-/

namespace UserSuggest

/-- JavaScript values reaching the controller from `res.json()` and flowing
into `suggestions` and `selectedUser`. Numbers are restricted to integers. -/
inductive Jsonish where
  | null
  | undefined
  | bool (b : Bool)
  | num (n : Int)
  | str (s : String)
  | arr (elems : List Jsonish)
  | obj (fields : List (String × Jsonish))

/-- Model of `String.prototype.trim()`: strip whitespace from both ends. -/
def jsTrim (s : String) : String :=
  String.mk
    (((s.toList.dropWhile Char.isWhitespace).reverse.dropWhile
        Char.isWhitespace).reverse)

/-- JavaScript truthiness. -/
def truthy : Jsonish → Bool
  | .null => false
  | .undefined => false
  | .bool b => b
  | .num n => n != 0
  | .str s => s != ""
  | .arr _ => true
  | .obj _ => true

/-- The expression `a || b`: `a` when truthy, else `b`. -/
def jsOr (a b : Jsonish) : Jsonish := if truthy a then a else b

/-- Property access `v.k` for non-nullish `v` (on `null` or `undefined` the
source throws `TypeError` before any such access is evaluated, which the
call sites model separately). -/
def getField : Jsonish → String → Jsonish
  | .obj fs, k => (fs.lookup k).getD .undefined
  | _, _ => .undefined

/-- The expression `v.length`. -/
def jsLength : Jsonish → Jsonish
  | .arr xs => .num xs.length
  | .str s => .num s.length
  | .obj fs => (fs.lookup "length").getD .undefined
  | _ => .undefined

/-- `ToNumber` coercion, with `none` standing for `NaN`; only integer-valued
numerics are representable, which covers every value the controller ever
compares. -/
def toNumber : Jsonish → Option Int
  | .null => some 0
  | .undefined => none
  | .bool b => some (if b then 1 else 0)
  | .num n => some n
  | .str s => if jsTrim s = "" then some 0 else (jsTrim s).toInt?
  | .arr [] => some 0
  | .arr [x] => toNumber x
  | .arr (_ :: _ :: _) => none
  | .obj _ => none

/-- The test `i < v.length - 1`, with JavaScript semantics: a comparison
against `NaN` is false. -/
def ltLenMinusOne (i : Int) (v : Jsonish) : Bool :=
  match toNumber (jsLength v) with
  | some n => decide (i < n - 1)
  | none => false

/-- Indexed access `v[i]`. -/
def jsIndex (v : Jsonish) (i : Int) : Jsonish :=
  match v with
  | .arr xs => if h : 0 ≤ i ∧ i.toNat < xs.length then xs.get ⟨i.toNat, h.2⟩ else .undefined
  | .str s =>
      if 0 ≤ i then
        match s.toList.get? i.toNat with
        | some c => .str (String.mk [c])
        | none => .undefined
      else .undefined
  | .obj fs => (fs.lookup (toString i)).getD .undefined
  | _ => .undefined

/-- How a `fetch` settles, as seen by the awaits in `fetchUsers`: either a
response carrying its `ok` flag and the result of `res.json()` (an `Except`,
since the body may fail to parse, rejecting with `SyntaxError`), or a
rejection carrying the error name (`TypeError` for a transport failure;
whether the awaits instead reject with `AbortError` is decided by the state
epoch, not by the caller). -/
inductive FetchOutcome where
  | response (ok : Bool) (body : Except String Jsonish)
  | reject (errName : String)

/-- The reactive state of the component. -/
structure Ctrl where
  searchQuery : String
  suggestions : Jsonish
  isOpen : Bool
  isLoading : Bool
  activeIndex : Int
  selectedUser : Jsonish
  /-- the pending `debounceTimer`, recording the `target.value` its callback
  captured; `clearTimeout` plus `setTimeout` is an overwrite -/
  debounce : Option String
  /-- identity of the current `abortCtrl`: bumped by every `fetchUsers` call,
  which aborts the previous controller, so a request whose epoch is below the
  state epoch has been aborted -/
  epoch : Nat
  /-- the `console.error` observability sink: names of reported errors -/
  consoleErrors : List String

/-- Initial reactive state (`defineModel` starts undefined when the host
binds nothing). -/
def initState : Ctrl :=
  { searchQuery := "", suggestions := .arr [], isOpen := false,
    isLoading := false, activeIndex := -1, selectedUser := .undefined,
    debounce := none, epoch := 0, consoleErrors := [] }

/-- Synchronous prologue of `fetchUsers`: abort the previous controller and
install a fresh one (the epoch bump), clear and close on a blank query
without issuing anything, otherwise set the loading flag and issue the
request, returned as `(controller epoch, query)`. -/
def fetchUsers (query : String) (s : Ctrl) : Ctrl × Option (Nat × String) :=
  let s1 : Ctrl := { s with epoch := s.epoch + 1 }
  if jsTrim query = "" then
    ({ s1 with suggestions := .arr [], isOpen := false }, none)
  else
    ({ s1 with isLoading := true }, some (s1.epoch, query))

/-- The success continuation of `fetchUsers`:
`suggestions.value = data.results || data || []`, then open the dropdown and
reset the highlight when `suggestions.value.length` is truthy, else close. -/
def applyData (data : Jsonish) (s : Ctrl) : Ctrl :=
  let v := jsOr (jsOr (getField data "results") data) (.arr [])
  let s1 : Ctrl := { s with suggestions := v }
  if truthy (jsLength v) then { s1 with isOpen := true, activeIndex := -1 }
  else { s1 with isOpen := false }

/-- The `catch` block of `fetchUsers`: `AbortError` is silently ignored, any
other error is reported to `console.error` and clears `suggestions`. -/
def catchBlock (errName : String) (s : Ctrl) : Ctrl :=
  if errName = "AbortError" then s
  else { s with consoleErrors := s.consoleErrors ++ [errName],
                suggestions := .arr [] }

/-- Continuation of `fetchUsers` for the request created at epoch `k`, run
when that request settles. If the controller has been aborted (`k` is no
longer the state epoch, because a later `fetchUsers` call ran), the awaits
reject with `AbortError`. Otherwise: a non-ok response throws
`Error("API Error")`; an unparsable body rejects with `SyntaxError`; a `null`
payload makes `data.results` throw `TypeError`; a transport rejection is
caught under its own name; a parsed payload runs the success continuation.
The `finally` clause clears the loading flag in every case. -/
def fetchUsersResume (k : Nat) (out : FetchOutcome) (s : Ctrl) : Ctrl :=
  let s1 :=
    if k = s.epoch then
      match out with
      | .reject errName => catchBlock errName s
      | .response ok body =>
        if ok then
          match body with
          | .error _ => catchBlock "SyntaxError" s
          | .ok .null => catchBlock "TypeError" s
          | .ok data => applyData data s
        else catchBlock "Error" s
    else catchBlock "AbortError" s
  { s1 with isLoading := false }

/-- The `onInput` handler: update the query, clear the pending debounce timer
and start a new one whose callback will call `fetchUsers` with the captured
text. -/
def onInput (text : String) (s : Ctrl) : Ctrl :=
  { s with searchQuery := text, debounce := some text }

/-- The pending debounce timer elapses: its callback runs `fetchUsers` on the
captured text. -/
def debounceElapse (s : Ctrl) : Ctrl × Option (Nat × String) :=
  match s.debounce with
  | none => (s, none)
  | some q => fetchUsers q { s with debounce := none }

/-- The `selectItem` commit: set the selection, clear the query, clear the
suggestions, close the dropdown. -/
def selectItem (user : Jsonish) (s : Ctrl) : Ctrl :=
  { s with selectedUser := user, searchQuery := "", suggestions := .arr [],
           isOpen := false }

/-- The keys `onKeydown` distinguishes. -/
inductive Key where
  | arrowDown | arrowUp | enter | escape | other

/-- The `onKeydown` handler: everything is gated on the dropdown being open;
ArrowDown increments the highlight while below `suggestions.length - 1`,
ArrowUp decrements it while above 0, Enter with a non-negative highlight
commits `suggestions[activeIndex]`, Escape closes the dropdown. -/
def onKeydown (key : Key) (s : Ctrl) : Ctrl :=
  if s.isOpen then
    match key with
    | .arrowDown =>
        if ltLenMinusOne s.activeIndex s.suggestions then
          { s with activeIndex := s.activeIndex + 1 }
        else s
    | .arrowUp =>
        if 0 < s.activeIndex then { s with activeIndex := s.activeIndex - 1 }
        else s
    | .enter =>
        if 0 ≤ s.activeIndex then
          selectItem (jsIndex s.suggestions s.activeIndex) s
        else s
    | .escape => { s with isOpen := false }
    | .other => s
  else s

/-- External triggers driving the controller, in host event-queue order.
`resolve k out` is the settling of the request issued at epoch `k`;
`elapse` is the pending debounce timer firing; `mouseenterItem` and
`mousedownItem` are the pointer handlers on a rendered suggestion row. -/
inductive Event where
  | input (text : String)
  | elapse
  | resolve (k : Nat) (out : FetchOutcome)
  | keydown (key : Key)
  | mouseenterItem (idx : Int)
  | mousedownItem (idx : Int)

/-- One event step; the second component lists the network requests issued
by the step. -/
def step (s : Ctrl) (e : Event) : Ctrl × List (Nat × String) :=
  match e with
  | .input t => (onInput t s, [])
  | .elapse =>
      match debounceElapse s with
      | (s1, c) => (s1, c.toList)
  | .resolve k out => (fetchUsersResume k out s, [])
  | .keydown key => (onKeydown key s, [])
  | .mouseenterItem i => ({ s with activeIndex := i }, [])
  | .mousedownItem i => (selectItem (jsIndex s.suggestions i) s, [])

/-- Run a sequence of events, collecting the issued network requests. -/
def run (s : Ctrl) (es : List Event) : Ctrl × List (Nat × String) :=
  match es with
  | [] => (s, [])
  | e :: rest =>
      match step s e with
      | (s1, c1) =>
        match run s1 rest with
        | (s2, c2) => (s2, c1 ++ c2)

/-- A sample candidate. -/
def alice : Jsonish := .obj [("id", .num 1), ("name", .str "Alice")]

/-- A second sample candidate. -/
def alan : Jsonish := .obj [("id", .num 2), ("name", .str "Alan")]

/-- C1: a lookup request superseded before it resolves — its controller epoch
`k` is older than the state epoch, because a later `fetchUsers` call aborted
it — never mutates `suggestions`, `isOpen` or `activeIndex`, whatever its
outcome: only the most recently issued request can replace the Suggestion
Set. -/
theorem C1_superseded_request_is_inert (s : Ctrl) (k : Nat)
    (out : FetchOutcome) (h : k < s.epoch) :
    (fetchUsersResume k out s).suggestions = s.suggestions ∧
    (fetchUsersResume k out s).isOpen = s.isOpen ∧
    (fetchUsersResume k out s).activeIndex = s.activeIndex := by
  have hk : k ≠ s.epoch := Nat.ne_of_lt h
  simp [fetchUsersResume, hk, catchBlock]

/-- Concrete state for the at-most-one-live-result witness: two requests have
been issued (epoch 2), the first of them superseded, while the dropdown shows
one candidate. -/
def sC1 : Ctrl :=
  { initState with epoch := 2, isOpen := true, suggestions := .arr [alice],
                   activeIndex := 0, isLoading := true }

/-- Witness for `C1_superseded_request_is_inert`: the superseded request 1
resolves successfully with a fresh candidate list, and mutates nothing. -/
theorem C1_witness :
    1 < sC1.epoch ∧
    ((fetchUsersResume 1 (.response true (.ok (.arr [alan]))) sC1).suggestions
        = sC1.suggestions ∧
      (fetchUsersResume 1 (.response true (.ok (.arr [alan]))) sC1).isOpen
        = sC1.isOpen ∧
      (fetchUsersResume 1 (.response true (.ok (.arr [alan]))) sC1).activeIndex
        = sC1.activeIndex) :=
  ⟨by decide,
    C1_superseded_request_is_inert sC1 1 (.response true (.ok (.arr [alan])))
      (by decide)⟩

/-- C2 counterexample: immediately after `onInput` with the empty string the
Suggestion Set and the open flag are untouched — here the dropdown is still
open on two candidates — because the clear is only scheduled behind the
300 ms debounce. The claim requires `items = []` and `open = false`
synchronously at the keystroke. -/
theorem C2_counterexample :
    ((run initState
        [.input "al", .elapse,
         .resolve 1 (.response true (.ok (.arr [alice, alan]))),
         .input ""]).1.suggestions = .arr [alice, alan]) ∧
    ((run initState
        [.input "al", .elapse,
         .resolve 1 (.response true (.ok (.arr [alice, alan]))),
         .input ""]).1.isOpen = true) :=
  ⟨rfl, rfl⟩

/-- C2 amended: `onInput` with the empty string only updates the query and
resets the debounce timer; the Suggestion Set is cleared and the dropdown
closed only when the debounced callback later runs `fetchUsers` on the empty
string, and no network request is issued at either step. -/
theorem C2_amended_empty_input_clears_after_debounce (s : Ctrl) :
    (step s (.input "")).2 = [] ∧
    (step s (.input "")).1.searchQuery = "" ∧
    (step (step s (.input "")).1 .elapse).1.suggestions = .arr [] ∧
    (step (step s (.input "")).1 .elapse).1.isOpen = false ∧
    (step (step s (.input "")).1 .elapse).2 = [] := by
  have h : jsTrim "" = "" := rfl
  simp [step, onInput, debounceElapse, fetchUsers, h]

/-- C3 counterexample: a fetch for "ab" is in flight; the user clears the
input to the empty string; the stale response arrives before the debounced
`fetchUsers` on the empty string has run — and is applied: the dropdown opens
on the stale candidates. The claim requires `items = []` and `open = false`
at every moment from the clearing keystroke onward. -/
theorem C3_counterexample :
    ((run initState
        [.input "ab", .elapse, .input "",
         .resolve 1 (.response true (.ok (.arr [alice, alan])))]).1.suggestions
      = .arr [alice, alan]) ∧
    ((run initState
        [.input "ab", .elapse, .input "",
         .resolve 1 (.response true (.ok (.arr [alice, alan])))]).1.isOpen
      = true) :=
  ⟨rfl, rfl⟩

/-- C3 amended: the in-flight request is only invalidated when the debounced
`fetchUsers` on the empty string runs, about 300 ms after the clearing
keystroke. From that point on the Suggestion Set is empty and the dropdown
closed, and the stale resolution of any previously issued request (epoch at
most the pre-clear epoch) cannot change either; a stale response arriving
before the debounce fires is, however, applied (see the counterexample). -/
theorem C3_amended_invalidation_at_debounce (s : Ctrl) (k : Nat)
    (out : FetchOutcome) (h : k ≤ s.epoch) :
    ((step (step s (.input "")).1 .elapse).1.suggestions = .arr [] ∧
     (step (step s (.input "")).1 .elapse).1.isOpen = false) ∧
    ((step (step (step s (.input "")).1 .elapse).1
        (.resolve k out)).1.suggestions = .arr [] ∧
     (step (step (step s (.input "")).1 .elapse).1
        (.resolve k out)).1.isOpen = false) := by
  have h1 : jsTrim "" = "" := rfl
  have hk : k ≠ s.epoch + 1 := by omega
  simp [step, onInput, debounceElapse, fetchUsers, fetchUsersResume,
        catchBlock, h1, hk]

/-- Witness for `C3_amended_invalidation_at_debounce`: from the initial state
with its sole (vacuous) prior epoch 0, clearing and debouncing leaves the set
empty and closed, before and after the stale resolution. -/
theorem C3_witness :
    0 ≤ initState.epoch ∧
    (((step (step initState (.input "")).1 .elapse).1.suggestions = .arr [] ∧
      (step (step initState (.input "")).1 .elapse).1.isOpen = false) ∧
     ((step (step (step initState (.input "")).1 .elapse).1
         (.resolve 0 (.response true (.ok (.arr [alice]))))).1.suggestions
        = .arr [] ∧
      (step (step (step initState (.input "")).1 .elapse).1
         (.resolve 0 (.response true (.ok (.arr [alice]))))).1.isOpen
        = false)) :=
  ⟨by decide,
    C3_amended_invalidation_at_debounce initState 0
      (.response true (.ok (.arr [alice]))) (by decide)⟩

/-- C4 counterexample: two keystrokes inside the quiet period, the second one
clearing the field; when the single pending timer elapses, no network call at
all is issued — not the exactly one call with the final text that the claim
requires of every such keystroke sequence. -/
theorem C4_counterexample :
    (run initState [.input "a", .input "", .elapse]).2.length = 0 := rfl

/-- C4 amended: keystrokes all landing within the quiet period coalesce into
the single pending debounce timer; when it elapses, exactly one network
request is issued and it carries the final keystroke text — unless that text
is blank, in which case no request is issued at all. -/
theorem C4_amended_debounce_coalesces (s : Ctrl) (ks : List String)
    (q : String) :
    ((run s ((ks ++ [q]).map Event.input ++ [Event.elapse])).2).map Prod.snd
      = if jsTrim q = "" then [] else [q] := by
  induction ks generalizing s with
  | nil =>
      by_cases hq : jsTrim q = "" <;>
        simp [run, step, onInput, debounceElapse, fetchUsers, hq]
  | cons k rest ih =>
      simpa [run, step, onInput] using ih (onInput k s)

/-- C5 counterexample: a failing refresh (non-ok response for "alb") while
the dropdown is open on the results for "al" clears `suggestions` but leaves
the open flag true — the failure path never touches `isOpen`, so the
dropdown is not left closed as the claim requires. -/
theorem C5_counterexample :
    ((run initState
        [.input "al", .elapse,
         .resolve 1 (.response true (.ok (.arr [alice, alan]))),
         .input "alb", .elapse,
         .resolve 2 (.response false (.error ""))]).1.isOpen = true) ∧
    ((run initState
        [.input "al", .elapse,
         .resolve 1 (.response true (.ok (.arr [alice, alan]))),
         .input "alb", .elapse,
         .resolve 2 (.response false (.error ""))]).1.suggestions = .arr []) :=
  ⟨rfl, rfl⟩

/-- C5 amended: every live non-cancellation failure — transport rejection,
non-ok response, unparsable body, `null` payload — clears the Suggestion
Set, reports the error name to the `console.error` sink and clears the
loading flag, but leaves the open flag exactly as it was: the dropdown is
not closed by the failure path. -/
theorem C5_amended_failure_handling (s : Ctrl) (errName : String)
    (m : String) (body : Except String Jsonish) (h : errName ≠ "AbortError") :
    ((fetchUsersResume s.epoch (.reject errName) s).suggestions = .arr [] ∧
     (fetchUsersResume s.epoch (.reject errName) s).consoleErrors
        = s.consoleErrors ++ [errName] ∧
     (fetchUsersResume s.epoch (.reject errName) s).isLoading = false ∧
     (fetchUsersResume s.epoch (.reject errName) s).isOpen = s.isOpen) ∧
    ((fetchUsersResume s.epoch (.response false body) s).suggestions
        = .arr [] ∧
     (fetchUsersResume s.epoch (.response false body) s).consoleErrors
        = s.consoleErrors ++ ["Error"] ∧
     (fetchUsersResume s.epoch (.response false body) s).isLoading = false ∧
     (fetchUsersResume s.epoch (.response false body) s).isOpen = s.isOpen) ∧
    ((fetchUsersResume s.epoch (.response true (.error m)) s).suggestions
        = .arr [] ∧
     (fetchUsersResume s.epoch (.response true (.error m)) s).consoleErrors
        = s.consoleErrors ++ ["SyntaxError"] ∧
     (fetchUsersResume s.epoch (.response true (.error m)) s).isLoading
        = false ∧
     (fetchUsersResume s.epoch (.response true (.error m)) s).isOpen
        = s.isOpen) ∧
    ((fetchUsersResume s.epoch (.response true (.ok .null)) s).suggestions
        = .arr [] ∧
     (fetchUsersResume s.epoch (.response true (.ok .null)) s).consoleErrors
        = s.consoleErrors ++ ["TypeError"] ∧
     (fetchUsersResume s.epoch (.response true (.ok .null)) s).isLoading
        = false ∧
     (fetchUsersResume s.epoch (.response true (.ok .null)) s).isOpen
        = s.isOpen) := by
  have h2 : ("Error" : String) ≠ "AbortError" := by decide
  have h3 : ("SyntaxError" : String) ≠ "AbortError" := by decide
  have h4 : ("TypeError" : String) ≠ "AbortError" := by decide
  simp [fetchUsersResume, catchBlock, h, h2, h3, h4]

/-- Witness for `C5_amended_failure_handling`: a concrete transport failure
named TypeError, a non-ok response, an unparsable body and a `null` payload,
resolved against the initial state. -/
theorem C5_witness :
    ("TypeError" : String) ≠ "AbortError" ∧
    (((fetchUsersResume initState.epoch (.reject "TypeError")
          initState).suggestions = .arr [] ∧
      (fetchUsersResume initState.epoch (.reject "TypeError")
          initState).consoleErrors = initState.consoleErrors ++ ["TypeError"] ∧
      (fetchUsersResume initState.epoch (.reject "TypeError")
          initState).isLoading = false ∧
      (fetchUsersResume initState.epoch (.reject "TypeError")
          initState).isOpen = initState.isOpen) ∧
     ((fetchUsersResume initState.epoch (.response false (.error "bad"))
          initState).suggestions = .arr [] ∧
      (fetchUsersResume initState.epoch (.response false (.error "bad"))
          initState).consoleErrors = initState.consoleErrors ++ ["Error"] ∧
      (fetchUsersResume initState.epoch (.response false (.error "bad"))
          initState).isLoading = false ∧
      (fetchUsersResume initState.epoch (.response false (.error "bad"))
          initState).isOpen = initState.isOpen) ∧
     ((fetchUsersResume initState.epoch (.response true (.error "bad"))
          initState).suggestions = .arr [] ∧
      (fetchUsersResume initState.epoch (.response true (.error "bad"))
          initState).consoleErrors = initState.consoleErrors ++ ["SyntaxError"] ∧
      (fetchUsersResume initState.epoch (.response true (.error "bad"))
          initState).isLoading = false ∧
      (fetchUsersResume initState.epoch (.response true (.error "bad"))
          initState).isOpen = initState.isOpen) ∧
     ((fetchUsersResume initState.epoch (.response true (.ok .null))
          initState).suggestions = .arr [] ∧
      (fetchUsersResume initState.epoch (.response true (.ok .null))
          initState).consoleErrors = initState.consoleErrors ++ ["TypeError"] ∧
      (fetchUsersResume initState.epoch (.response true (.ok .null))
          initState).isLoading = false ∧
      (fetchUsersResume initState.epoch (.response true (.ok .null))
          initState).isOpen = initState.isOpen)) :=
  ⟨by decide,
    C5_amended_failure_handling initState "TypeError" "bad" (.error "bad")
      (by decide)⟩

/-- C6 counterexample: request 1 for "a" is superseded by request 2 for "ab"
(still in flight, hence the two issued requests in the second conjunct);
when the aborted request 1 settles, the `finally` clause clears the loading
flag — the claim requires the flag to remain true for the superseding
request. -/
theorem C6_counterexample :
    ((run initState
        [.input "a", .elapse, .input "ab", .elapse,
         .resolve 1 (.reject "AbortError")]).1.isLoading = false) ∧
    ((run initState
        [.input "a", .elapse, .input "ab", .elapse,
         .resolve 1 (.reject "AbortError")]).2 = [(1, "a"), (2, "ab")]) :=
  ⟨rfl, rfl⟩

/-- C6 amended: the `finally` clause clears the loading flag on every
resolution, including the cancellation of a superseded request — so a
cancelled request settling turns the loading indicator off even while the
superseding request is still in flight. -/
theorem C6_amended_loading_cleared_on_every_resolution (s : Ctrl) (k : Nat)
    (out : FetchOutcome) :
    (fetchUsersResume k out s).isLoading = false := rfl

/-- C7: the fallback `data.results || data || []` accepts a bare truthy
non-array payload wholesale — a plain object without a `results` field is
stored as the Suggestion Set itself, not the empty sequence the claim
requires of every non-array fallback. -/
theorem C7_nonarray_fallback_kept :
    ((run initState
        [.input "x", .elapse,
         .resolve 1 (.response true
            (.ok (.obj [("name", .str "x")])))]).1.suggestions
      = .obj [("name", .str "x")]) ∧
    ¬ ((run initState
        [.input "x", .elapse,
         .resolve 1 (.response true
            (.ok (.obj [("name", .str "x")])))]).1.suggestions
      = .arr []) := by
  have h : (run initState
      [.input "x", .elapse,
       .resolve 1 (.response true
          (.ok (.obj [("name", .str "x")])))]).1.suggestions
      = Jsonish.obj [("name", .str "x")] := rfl
  refine ⟨h, fun hc => ?_⟩
  rw [h] at hc
  exact Jsonish.noConfusion hc

/-- C8 counterexample: the dropdown opens on two candidates, ArrowDown twice
highlights index 1, then a failing refresh replaces the Suggestion Set by the
empty set — and the active index stays 1, neither reset to -1 nor inside
`[-1, len(items) - 1] = [-1, -1]`. -/
theorem C8_counterexample :
    ((run initState
        [.input "al", .elapse,
         .resolve 1 (.response true (.ok (.arr [alice, alan]))),
         .keydown .arrowDown, .keydown .arrowDown,
         .input "alb", .elapse,
         .resolve 2 (.response false (.error ""))]).1.activeIndex = 1) ∧
    ((run initState
        [.input "al", .elapse,
         .resolve 1 (.response true (.ok (.arr [alice, alan]))),
         .keydown .arrowDown, .keydown .arrowDown,
         .input "alb", .elapse,
         .resolve 2 (.response false (.error ""))]).1.suggestions
      = .arr []) :=
  ⟨rfl, rfl⟩

/-- C8 amended: the active index is reset to -1 exactly when a non-empty
Suggestion Set replaces the old one; replacement by an empty set — empty
success result, non-cancellation failure, or commit — leaves the active
index unchanged, so the upper bound `activeIndex ≤ len(items) - 1` can be
violated after such a replacement (see the counterexample). -/
theorem C8_amended_reset_only_on_nonempty (s : Ctrl) (xs : List Jsonish)
    (u : Jsonish) (errName : String) (hxs : xs ≠ [])
    (he : errName ≠ "AbortError") :
    ((fetchUsersResume s.epoch (.response true (.ok (.arr xs)))
        s).activeIndex = -1 ∧
     (fetchUsersResume s.epoch (.response true (.ok (.arr xs)))
        s).suggestions = .arr xs ∧
     (fetchUsersResume s.epoch (.response true (.ok (.arr xs)))
        s).isOpen = true) ∧
    ((fetchUsersResume s.epoch (.response true (.ok (.arr [])))
        s).suggestions = .arr [] ∧
     (fetchUsersResume s.epoch (.response true (.ok (.arr [])))
        s).activeIndex = s.activeIndex) ∧
    ((fetchUsersResume s.epoch (.reject errName) s).suggestions = .arr [] ∧
     (fetchUsersResume s.epoch (.reject errName) s).activeIndex
        = s.activeIndex) ∧
    ((selectItem u s).suggestions = .arr [] ∧
     (selectItem u s).activeIndex = s.activeIndex) := by
  have hl : (xs.length : Int) ≠ 0 := by
    have : xs.length ≠ 0 := fun h0 => hxs (List.length_eq_zero.mp h0)
    exact_mod_cast this
  simp [fetchUsersResume, applyData, getField, jsOr, truthy, jsLength,
        catchBlock, selectItem, he, hl]

/-- Witness for `C8_amended_reset_only_on_nonempty`: a one-candidate success,
the empty success, a concrete failure and a concrete commit, resolved against
the initial state. -/
theorem C8_witness :
    ([alice] ≠ ([] : List Jsonish) ∧ ("Error" : String) ≠ "AbortError") ∧
    (((fetchUsersResume initState.epoch (.response true (.ok (.arr [alice])))
          initState).activeIndex = -1 ∧
      (fetchUsersResume initState.epoch (.response true (.ok (.arr [alice])))
          initState).suggestions = .arr [alice] ∧
      (fetchUsersResume initState.epoch (.response true (.ok (.arr [alice])))
          initState).isOpen = true) ∧
     ((fetchUsersResume initState.epoch (.response true (.ok (.arr [])))
          initState).suggestions = .arr [] ∧
      (fetchUsersResume initState.epoch (.response true (.ok (.arr [])))
          initState).activeIndex = initState.activeIndex) ∧
     ((fetchUsersResume initState.epoch (.reject "Error")
          initState).suggestions = .arr [] ∧
      (fetchUsersResume initState.epoch (.reject "Error")
          initState).activeIndex = initState.activeIndex) ∧
     ((selectItem alice initState).suggestions = .arr [] ∧
      (selectItem alice initState).activeIndex = initState.activeIndex)) :=
  ⟨⟨fun hc => List.noConfusion hc, by decide⟩,
    C8_amended_reset_only_on_nonempty initState [alice] alice "Error"
      (fun hc => List.noConfusion hc) (by decide)⟩

/-- C9: with the dropdown open and `activeIndex` within
`[-1, len(items) - 1]`, ArrowDown increments the highlight exactly when
`activeIndex < len(items) - 1` and is otherwise a no-op, ArrowUp decrements
exactly when `activeIndex > 0` and is otherwise a no-op (never 0 to -1), the
results stay within the bounds, and with the dropdown closed both keys leave
the state untouched. -/
theorem C9_navigation (s : Ctrl) (xs : List Jsonish)
    (hs : s.suggestions = .arr xs) (h1 : -1 ≤ s.activeIndex)
    (h2 : s.activeIndex ≤ (xs.length : Int) - 1) :
    (s.isOpen = true →
      ((onKeydown .arrowDown s).activeIndex =
        if s.activeIndex < (xs.length : Int) - 1 then s.activeIndex + 1
        else s.activeIndex) ∧
      ((onKeydown .arrowUp s).activeIndex =
        if 0 < s.activeIndex then s.activeIndex - 1 else s.activeIndex) ∧
      (-1 ≤ (onKeydown .arrowDown s).activeIndex ∧
        (onKeydown .arrowDown s).activeIndex ≤ (xs.length : Int) - 1) ∧
      (-1 ≤ (onKeydown .arrowUp s).activeIndex ∧
        (onKeydown .arrowUp s).activeIndex ≤ (xs.length : Int) - 1)) ∧
    (s.isOpen = false →
      onKeydown .arrowDown s = s ∧ onKeydown .arrowUp s = s) := by
  constructor
  · intro hop
    have hlt : ltLenMinusOne s.activeIndex s.suggestions
        = decide (s.activeIndex < (xs.length : Int) - 1) := by
      simp [ltLenMinusOne, hs, jsLength, toNumber]
    by_cases hdown : s.activeIndex < (xs.length : Int) - 1 <;>
      by_cases hup : 0 < s.activeIndex <;>
        simp [onKeydown, hop, hlt, hdown, hup] <;> omega
  · intro hcl
    simp [onKeydown, hcl]

/-- Concrete state for the navigation witness: dropdown open on two
candidates with the first one highlighted. -/
def sC9 : Ctrl :=
  { initState with isOpen := true, suggestions := .arr [alice, alan],
                   activeIndex := 0 }

/-- Witness for `C9_navigation`: at highlight 0 of two candidates, ArrowDown
moves to 1 and ArrowUp is a no-op at its boundary condition. -/
theorem C9_witness :
    (sC9.suggestions = .arr [alice, alan] ∧ -1 ≤ sC9.activeIndex ∧
      sC9.activeIndex ≤ (([alice, alan] : List Jsonish).length : Int) - 1) ∧
    ((sC9.isOpen = true →
      ((onKeydown .arrowDown sC9).activeIndex =
        if sC9.activeIndex < (([alice, alan] : List Jsonish).length : Int) - 1
        then sC9.activeIndex + 1 else sC9.activeIndex) ∧
      ((onKeydown .arrowUp sC9).activeIndex =
        if 0 < sC9.activeIndex then sC9.activeIndex - 1
        else sC9.activeIndex) ∧
      (-1 ≤ (onKeydown .arrowDown sC9).activeIndex ∧
        (onKeydown .arrowDown sC9).activeIndex
          ≤ (([alice, alan] : List Jsonish).length : Int) - 1) ∧
      (-1 ≤ (onKeydown .arrowUp sC9).activeIndex ∧
        (onKeydown .arrowUp sC9).activeIndex
          ≤ (([alice, alan] : List Jsonish).length : Int) - 1)) ∧
     (sC9.isOpen = false →
      onKeydown .arrowDown sC9 = sC9 ∧ onKeydown .arrowUp sC9 = sC9)) :=
  ⟨⟨rfl, by decide, by decide⟩,
    C9_navigation sC9 [alice, alan] rfl (by decide) (by decide)⟩

/-- C10: a reachable trace in which Enter commits while the dropdown is open
with `activeIndex = 0` but `suggestions` empty — both the open flag and the
highlight survive a failed refresh — so `suggestions[activeIndex]` is the
JavaScript `undefined` and the committed selection is `undefined`, not a
defined candidate. -/
theorem C10_enter_commits_undefined :
    ((run initState
        [.input "al", .elapse,
         .resolve 1 (.response true (.ok (.arr [alice, alan]))),
         .keydown .arrowDown,
         .input "alb", .elapse,
         .resolve 2 (.response false (.error ""))]).1.isOpen = true) ∧
    ((run initState
        [.input "al", .elapse,
         .resolve 1 (.response true (.ok (.arr [alice, alan]))),
         .keydown .arrowDown,
         .input "alb", .elapse,
         .resolve 2 (.response false (.error ""))]).1.activeIndex = 0) ∧
    ((run initState
        [.input "al", .elapse,
         .resolve 1 (.response true (.ok (.arr [alice, alan]))),
         .keydown .arrowDown,
         .input "alb", .elapse,
         .resolve 2 (.response false (.error ""))]).1.suggestions
      = .arr []) ∧
    ((run initState
        [.input "al", .elapse,
         .resolve 1 (.response true (.ok (.arr [alice, alan]))),
         .keydown .arrowDown,
         .input "alb", .elapse,
         .resolve 2 (.response false (.error "")),
         .keydown .enter]).1.selectedUser = .undefined) :=
  ⟨rfl, rfl, rfl, rfl⟩

end UserSuggest
